import Mathlib

/-!
Verification of the contract interaction & state synchronization layer of
the Yeil token frontend (mantle-yeil-hackathon).

The address-resolution component is embedded directly from
`src/web/lib/contracts/addresses.ts`.  The other components
(CallDispatcher, TransactionLifecycle, RefreshCoordinator,
DerivedStateCache) are present in the repository only through their
documentation; they are modelled here from the specification, as marked
on each definition.
-/

namespace Yeil

/-- The record type `ContractAddresses` of `addresses.ts`: one entry per
network, holding the token contract and the oracle contract address. -/
structure ContractAddresses where
  yeil : String
  proofOfReserveFeed : String
deriving DecidableEq, Repr

/-- The two keys of a `ContractAddresses` record
(`keyof ContractAddresses` in the source). -/
inductive ContractKey where
  | yeil
  | proofOfReserveFeed
deriving DecidableEq, Repr

/-- Field access on a `ContractAddresses` record by key
(`CONTRACT_ADDRESSES[chainId][contract]` in the source). -/
def ContractAddresses.get (a : ContractAddresses) : ContractKey → String
  | .yeil => a.yeil
  | .proofOfReserveFeed => a.proofOfReserveFeed

/-- Modelled from the spec: the chain id of the localhost (Anvil) network
imported from `@/config`, which is not in the sources.  Anvil's default
chain id. -/
def localhost_id : Nat := 31337

/-- Modelled from the spec: the chain id of Mantle mainnet imported from
`@/config`, which is not in the sources. -/
def mantle_id : Nat := 5000

/-- Modelled from the spec: the chain id of the Mantle Sepolia testnet
imported from `@/config`, which is not in the sources; the spec's §8
scenario names network 5003 as the configured network. -/
def mantleSepolia_id : Nat := 5003

/-- The static network-to-addresses map `CONTRACT_ADDRESSES` of
`addresses.ts`, a `Record<number, ContractAddresses>` with entries for
localhost, Mantle mainnet and Mantle Sepolia. -/
def CONTRACT_ADDRESSES (chainId : Nat) : Option ContractAddresses :=
  if chainId = localhost_id then
    some { yeil := "0xA15BB66138824a1c7167f5E85b957d04Dd34E468"
           proofOfReserveFeed := "0x700b6A60ce7EaaEA56F065753d8dcB9653dbAD35" }
  else if chainId = mantle_id then
    some { yeil := "0x0000000000000000000000000000000000000000"
           proofOfReserveFeed := "0x0000000000000000000000000000000000000000" }
  else if chainId = mantleSepolia_id then
    some { yeil := "0x0000000000000000000000000000000000000000"
           proofOfReserveFeed := "0x0000000000000000000000000000000000000000" }
  else
    none

/-- `getContractAddress` of `addresses.ts`, parametrized by the address
map it reads.  The TypeScript guard `if (!chainId ||
!CONTRACT_ADDRESSES[chainId]) return undefined` returns `undefined` when
`chainId` is `undefined` (here `none`) or the falsy number `0`, and
otherwise when the map has no entry for `chainId`. -/
def getContractAddressIn (m : Nat → Option ContractAddresses)
    (chainId : Option Nat) (contract : ContractKey) : Option String :=
  match chainId with
  | none => none
  | some cid =>
    if cid = 0 then none
    else
      match m cid with
      | none => none
      | some a => some (a.get contract)

/-- `getContractAddress` of `addresses.ts`, reading the static
`CONTRACT_ADDRESSES` map. -/
def getContractAddress (chainId : Option Nat) (contract : ContractKey) :
    Option String :=
  getContractAddressIn CONTRACT_ADDRESSES chainId contract

/-- `getYeilAddress` of `addresses.ts`. -/
def getYeilAddress (chainId : Option Nat) : Option String :=
  getContractAddress chainId .yeil

/-- `getProofOfReserveFeedAddress` of `addresses.ts`. -/
def getProofOfReserveFeedAddress (chainId : Option Nat) : Option String :=
  getContractAddress chainId .proofOfReserveFeed

example : getYeilAddress (some 31337) =
    some "0xA15BB66138824a1c7167f5E85b957d04Dd34E468" := by decide

example : getContractAddress (some 1) .yeil = none := by decide

example : getContractAddress (some 0) .yeil = none := by decide

/-- Helper: a network id mapped by `CONTRACT_ADDRESSES` resolves to the
stored record's field for any key. -/
theorem resolve_of_entry (cid : Nat) (k : ContractKey) (a : ContractAddresses)
    (ha : CONTRACT_ADDRESSES cid = some a) :
    getContractAddress (some cid) k = some (a.get k) := by
  have hcid : cid ≠ 0 := by
    intro h0
    rw [h0] at ha
    simp [CONTRACT_ADDRESSES, localhost_id, mantle_id, mantleSepolia_id] at ha
  simp [getContractAddress, getContractAddressIn, hcid, ha]

/-- Helper: a network id with no entry resolves to `none`. -/
theorem resolve_of_no_entry (cid : Nat) (k : ContractKey)
    (ha : CONTRACT_ADDRESSES cid = none) :
    getContractAddress (some cid) k = none := by
  simp [getContractAddress, getContractAddressIn, ha]

/-- C1: for every network id mapped by `CONTRACT_ADDRESSES` and every
contract key, `getContractAddress` returns the stored address; for every
unmapped network id it returns `none` (absent) rather than failing. -/
theorem getContractAddress_resolves (cid : Nat) (k : ContractKey) :
    (∀ a : ContractAddresses, CONTRACT_ADDRESSES cid = some a →
      getContractAddress (some cid) k = some (a.get k)) ∧
    (CONTRACT_ADDRESSES cid = none → getContractAddress (some cid) k = none) :=
  ⟨fun a ha => resolve_of_entry cid k a ha, fun ha => resolve_of_no_entry cid k ha⟩

/-- C1 witness: concrete evaluation at the localhost entry and at the
unmapped network id 1. -/
theorem getContractAddress_resolves_witness :
    getContractAddress (some 31337) ContractKey.yeil =
      some "0xA15BB66138824a1c7167f5E85b957d04Dd34E468" ∧
    getContractAddress (some 1) ContractKey.yeil = none := by
  refine ⟨(getContractAddress_resolves 31337 ContractKey.yeil).1
    { yeil := "0xA15BB66138824a1c7167f5E85b957d04Dd34E468"
      proofOfReserveFeed := "0x700b6A60ce7EaaEA56F065753d8dcB9653dbAD35" }
    (by decide), (getContractAddress_resolves 1 ContractKey.yeil).2 (by decide)⟩

/-- C2: every entry of `CONTRACT_ADDRESSES` is a complete record: for any
mapped network id, resolution succeeds for both contract keys, returning
the record's `yeil` and `proofOfReserveFeed` fields respectively. -/
theorem contract_addresses_complete (cid : Nat) (a : ContractAddresses)
    (ha : CONTRACT_ADDRESSES cid = some a) :
    getContractAddress (some cid) ContractKey.yeil = some a.yeil ∧
    getContractAddress (some cid) ContractKey.proofOfReserveFeed =
      some a.proofOfReserveFeed := by
  exact ⟨resolve_of_entry cid ContractKey.yeil a ha,
    resolve_of_entry cid ContractKey.proofOfReserveFeed a ha⟩

/-- C2 witness: both keys resolve for the localhost entry. -/
theorem contract_addresses_complete_witness :
    getContractAddress (some 31337) ContractKey.yeil =
      some "0xA15BB66138824a1c7167f5E85b957d04Dd34E468" ∧
    getContractAddress (some 31337) ContractKey.proofOfReserveFeed =
      some "0x700b6A60ce7EaaEA56F065753d8dcB9653dbAD35" :=
  contract_addresses_complete 31337
    { yeil := "0xA15BB66138824a1c7167f5E85b957d04Dd34E468"
      proofOfReserveFeed := "0x700b6A60ce7EaaEA56F065753d8dcB9653dbAD35" }
    (by decide)

/-- C3: with chain id `0` or an absent chain id, `getContractAddress`
returns `none` for every contract key and under EVERY address map — even
one that has an entry at key `0` — because the guard tests the chain id
for falsiness, not for map membership. -/
theorem getContractAddress_zero_absent (m : Nat → Option ContractAddresses)
    (k : ContractKey) :
    getContractAddressIn m none k = none ∧
    getContractAddressIn m (some 0) k = none := by
  exact ⟨rfl, by simp [getContractAddressIn]⟩

/-- Modelled from the spec: the `TokenSnapshot` record of §3, produced by
a batch of read calls; `totalSupply` and `verifiedReserves` are
arbitrary-precision unsigned integers in the token's smallest unit.  The
hook source `use-yeil-contract.ts` that assembles it is not in the
sources. -/
structure TokenSnapshot where
  name : String
  symbol : String
  decimalPlaces : Nat
  totalSupply : Nat
  verifiedReserves : Nat
  oracleAddress : String
deriving DecidableEq, Repr

/-- Modelled from the spec: the `isFullyBacked` field of a
`TokenSnapshot`, which "holds iff `verifiedReserves >= totalSupply`"
(§3); the contract read function computing it is not in the sources. -/
def TokenSnapshot.isFullyBacked (s : TokenSnapshot) : Bool :=
  s.totalSupply ≤ s.verifiedReserves

/-- A snapshot with the given supply and reserves, other fields fixed,
for the spec's §8 scenarios. -/
def scenarioSnapshot (supply reserves : Nat) : TokenSnapshot :=
  { name := "Yeil", symbol := "YEIL", decimalPlaces := 18,
    totalSupply := supply, verifiedReserves := reserves,
    oracleAddress := "0x700b6A60ce7EaaEA56F065753d8dcB9653dbAD35" }

example : (scenarioSnapshot 100 100).isFullyBacked = true := by decide
example : (scenarioSnapshot 100 99).isFullyBacked = false := by decide

/-- C4: in every `TokenSnapshot`, `isFullyBacked` is true exactly when
`verifiedReserves >= totalSupply`; in particular supply 100 with
reserves 100 yields true and reserves 99 yields false. -/
theorem isFullyBacked_iff :
    (∀ s : TokenSnapshot,
      s.isFullyBacked = decide (s.verifiedReserves ≥ s.totalSupply)) ∧
    (scenarioSnapshot 100 100).isFullyBacked = true ∧
    (scenarioSnapshot 100 99).isFullyBacked = false :=
  ⟨fun _ => rfl, by decide, by decide⟩

/-- Left-pad a digit string with zeros to the given width. -/
def padLeftZeros (s : String) (width : Nat) : String :=
  String.mk (List.replicate (width - s.length) '0') ++ s

/-- Drop trailing zero characters from a digit string. -/
def trimTrailingZeros (s : String) : String :=
  String.mk (s.toList.reverse.dropWhile (fun c => c = '0')).reverse

/-- Modelled from the spec: rendering of a raw smallest-unit integer as a
human decimal string, `formatted = raw / 10^decimalPlaces` "rendered with
fixed decimal precision" (§3); the formatting code (viem `formatEther`
inside `use-yeil-contract.ts`) is not in the sources.  The integer part
is `raw / 10^decimals`; the fractional part is `raw % 10^decimals`
written with `decimals` digits, trailing zeros trimmed, keeping at least
one digit. -/
def formatUnits (raw decimals : Nat) : String :=
  let base := 10 ^ decimals
  let frac := trimTrailingZeros (padLeftZeros (Nat.repr (raw % base)) decimals)
  Nat.repr (raw / base) ++ "." ++ (if frac = "" then "0" else frac)

/-- Modelled from the spec: the `BalanceRecord` of §3, a raw integer and
its derived formatted rendering. -/
structure BalanceRecord where
  raw : Nat
  formatted : String
deriving DecidableEq, Repr

/-- Modelled from the spec: construction of a `BalanceRecord` from a raw
balance and the token's decimal count, deriving `formatted` from `raw`. -/
def mkBalanceRecord (raw decimals : Nat) : BalanceRecord :=
  { raw := raw, formatted := formatUnits raw decimals }

example : formatUnits (10 * 10 ^ 18) 18 = "10.0" := by decide
example : formatUnits (105 * 10 ^ 17) 18 = "10.5" := by decide

/-- C5: for every `BalanceRecord` built from a raw balance, `formatted`
is the decimal rendering of `raw / 10^decimals`: its integer part is the
integer quotient and its fractional part renders the remainder; the
scenario raw = 10·10^18 with 18 decimals formats to "10.0". -/
theorem balanceRecord_formatted (raw decimals : Nat) :
    (mkBalanceRecord raw decimals).raw = raw ∧
    (∃ frac : String,
      (mkBalanceRecord raw decimals).formatted =
        Nat.repr (raw / 10 ^ decimals) ++ "." ++ frac) ∧
    (mkBalanceRecord (10 * 10 ^ 18) 18).formatted = "10.0" :=
  ⟨rfl, ⟨_, rfl⟩, by decide⟩

/-- Modelled from the spec: the write-path error taxonomy of §7 (read-path
kinds omitted here); the dispatching code is not in the sources.
`InvalidAmount` is a modelling artefact for decimal strings that do not
parse; the spec's scenarios never reach it. -/
inductive WriteError where
  | SignerUnavailable
  | UserRejected
  | SubmissionError
  | MissingTokenMetadata
  | RemoteRevert (reason : String)
  | InvalidAmount
deriving DecidableEq, Repr

/-- Split a character list at occurrences of the dot character. -/
def splitDotAux : List Char → List Char → List String
  | [], acc => [String.mk acc.reverse]
  | c :: cs, acc =>
    if c = '.' then String.mk acc.reverse :: splitDotAux cs []
    else splitDotAux cs (c :: acc)

/-- Split a string at dots (the behaviour of `splitOn "."`). -/
def splitOnDot (s : String) : List String :=
  splitDotAux s.toList []

/-- Parse a non-empty all-digit string as a natural number. -/
def decStringToNat? (s : String) : Option Nat :=
  match s.toList with
  | [] => none
  | cs =>
    cs.foldl
      (fun acc c =>
        match acc with
        | some n =>
          if 48 ≤ c.toNat ∧ c.toNat ≤ 57 then some (n * 10 + (c.toNat - 48))
          else none
        | none => none)
      (some 0)

/-- Modelled from the spec: conversion of a caller's decimal-string amount
(human units) to a raw smallest-unit integer using the token's decimal
count (§4.2 argument encoding); the parsing code (viem `parseEther`) is
not in the sources.  Accepts `"d"` and `"d.f"` with the fractional part
no longer than `decimals` digits. -/
def parseUnits (amount : String) (decimals : Nat) : Option Nat :=
  match splitOnDot amount with
  | [intPart] => (decStringToNat? intPart).map (fun i => i * 10 ^ decimals)
  | [intPart, fracPart] =>
    match decStringToNat? intPart, decStringToNat? fracPart with
    | some i, some f =>
      if fracPart.length ≤ decimals then
        some (i * 10 ^ decimals + f * 10 ^ (decimals - fracPart.length))
      else none
    | _, _ => none
  | _ => none

/-- Modelled from the spec: amount encoding at the write-call boundary
(§4.2): uses `decimalPlaces` from the most recently fetched
`TokenSnapshot`; "if no snapshot has been fetched yet, the write call
fails with `MissingTokenMetadata` rather than guessing a decimal
count". -/
def encodeAmount (snap : Option TokenSnapshot) (amount : String) :
    Except WriteError Nat :=
  match snap with
  | none => .error .MissingTokenMetadata
  | some s =>
    match parseUnits amount s.decimalPlaces with
    | some n => .ok n
    | none => .error .InvalidAmount

example : encodeAmount (some (scenarioSnapshot 100 100)) "5" =
    .ok (5 * 10 ^ 18) := rfl
example : encodeAmount none "5" = .error .MissingTokenMetadata := rfl

/-- C6: a write-call amount is encoded with the fetched snapshot's decimal
count — "5" under 18 decimals becomes 5·10^18 — and with no snapshot
fetched the call fails with `MissingTokenMetadata`. -/
theorem encodeAmount_spec :
    (∀ amount : String, encodeAmount none amount = .error .MissingTokenMetadata) ∧
    (∀ s : TokenSnapshot, s.decimalPlaces = 18 →
      encodeAmount (some s) "5" = .ok (5 * 10 ^ 18)) := by
  refine ⟨fun _ => rfl, fun s hd => ?_⟩
  show (match parseUnits "5" s.decimalPlaces with
    | some n => Except.ok n
    | none => Except.error WriteError.InvalidAmount) = Except.ok (5 * 10 ^ 18)
  rw [hd]
  rfl

/-- C6 witness: encoding at the concrete scenario snapshot. -/
theorem encodeAmount_spec_witness :
    encodeAmount none "5" = .error .MissingTokenMetadata ∧
    encodeAmount (some (scenarioSnapshot 100 100)) "5" = .ok (5 * 10 ^ 18) :=
  ⟨encodeAmount_spec.1 "5",
    encodeAmount_spec.2 (scenarioSnapshot 100 100) rfl⟩

/-- Modelled from the spec: the `TransactionState` of §3, owned by one
`TransactionLifecycle` instance per initiated write; the hook source
implementing it is not in the sources.  Hashes are modelled as naturals. -/
inductive TransactionState where
  | Idle
  | Submitted (hash : Nat)
  | Confirming (hash : Nat)
  | Confirmed (hash : Nat)
  | Failed (hash : Option Nat) (reason : String)
deriving DecidableEq, Repr

/-- Modelled from the spec: the transition table of the
`TransactionLifecycle` state machine (§4.3): submit from `Idle`, begin
confirmation from `Submitted`, confirm or fail from `Confirming`, and
reset from any state back to `Idle`. -/
def canStep : TransactionState → TransactionState → Bool
  | .Idle, .Submitted _ => true
  | .Submitted h, .Confirming h' => h = h'
  | .Confirming h, .Confirmed h' => h = h'
  | .Confirming h, .Failed (some h') _ => h = h'
  | _, .Idle => true
  | _, _ => false

example : canStep .Idle (.Submitted 1) = true := by decide
example : canStep .Idle (.Confirmed 1) = false := by decide
example : canStep (.Submitted 1) (.Confirmed 1) = false := by decide
example : canStep (.Confirming 1) (.Confirmed 1) = true := by decide

/-- Helper: the only state from which a single transition reaches
`Confirmed h` is `Confirming h`. -/
theorem confirmed_pred_confirming (s : TransactionState) (h : Nat)
    (hs : canStep s (.Confirmed h) = true) : s = .Confirming h := by
  cases s with
  | Idle => simp [canStep] at hs
  | Submitted h' => simp [canStep] at hs
  | Confirming h' =>
    simp [canStep] at hs
    rw [hs]
  | Confirmed h' => simp [canStep] at hs
  | Failed h' r => simp [canStep] at hs

/-- Helper: along any `canStep` chain from `s` ending in `Confirmed h`,
the state `Confirming h` occurs. -/
theorem chain_to_confirmed_hits_confirming (l : List TransactionState) :
    ∀ (s : TransactionState) (h : Nat),
      List.Chain (fun a b => canStep a b = true) s l →
      l.getLast? = some (.Confirmed h) →
      TransactionState.Confirming h ∈ s :: l := by
  induction l with
  | nil =>
    intro s h _ hlast
    simp at hlast
  | cons b t ih =>
    intro s h hchain hlast
    rw [List.chain_cons] at hchain
    obtain ⟨hsb, hbt⟩ := hchain
    cases t with
    | nil =>
      simp at hlast
      subst hlast
      have hs := confirmed_pred_confirming s h hsb
      rw [hs]
      exact List.mem_cons_self _ _
    | cons c t' =>
      have hlast' : (c :: t').getLast? = some (.Confirmed h) := by
        simpa using hlast
      exact List.mem_cons_of_mem s (ih b h hbt hlast')

/-- C8: there is no transition from `Idle` or from `Submitted` directly
to `Confirmed`; every single-step predecessor of `Confirmed h` is
`Confirming h`, and every execution (chain of transitions) from `Idle`
that reaches `Confirmed h` passes through `Confirming h`. -/
theorem confirmed_only_via_confirming (l : List TransactionState)
    (s : TransactionState) (h h' : Nat) :
    canStep .Idle (.Confirmed h) = false ∧
    canStep (.Submitted h') (.Confirmed h) = false ∧
    (canStep s (.Confirmed h) = true → s = .Confirming h) ∧
    (List.Chain (fun a b => canStep a b = true) .Idle l →
      l.getLast? = some (.Confirmed h) →
      TransactionState.Confirming h ∈ l) := by
  refine ⟨rfl, by simp [canStep], fun hs => confirmed_pred_confirming s h hs,
    fun hchain hlast => ?_⟩
  have hmem := chain_to_confirmed_hits_confirming l .Idle h hchain hlast
  rcases List.mem_cons.mp hmem with heq | hmem'
  · exact absurd heq (by simp)
  · exact hmem'

/-- C8 witness: the three-step execution submit, begin confirmation,
confirm contains `Confirming 1`. -/
theorem confirmed_only_via_confirming_witness :
    canStep .Idle (.Confirmed 1) = false ∧
    canStep (.Submitted 0) (.Confirmed 1) = false ∧
    TransactionState.Confirming 1 = .Confirming 1 ∧
    TransactionState.Confirming 1 ∈
      [TransactionState.Submitted 1, .Confirming 1, .Confirmed 1] := by
  obtain ⟨h1, h2, h3, h4⟩ := confirmed_only_via_confirming
    [.Submitted 1, .Confirming 1, .Confirmed 1] (.Confirming 1) 1 0
  refine ⟨h1, h2, h3 (by decide), h4 ?_ (by decide)⟩
  exact List.Chain.cons (by decide)
    (List.Chain.cons (by decide) (List.Chain.cons (by decide) List.Chain.nil))

/-- Modelled from the spec: the signer capability's response to a
submitted write descriptor (§6): a transaction handle, a rejection, or a
transport-level submission failure. -/
inductive SignerResult where
  | accepted (hash : Nat)
  | rejected
  | transportError
deriving DecidableEq, Repr

/-- Modelled from the spec: the observable outcome of issuing a write
call: its result, the descriptors handed to the signer/transport, and
the lifecycle state reached. -/
structure WriteOutcome where
  result : Except WriteError Nat
  submissions : List Nat
  lifecycle : TransactionState

/-- Modelled from the spec: write-call dispatch (§4.2): a write call
"fails with `SignerUnavailable` if no signer capability is present"
before any submission attempt, `UserRejected` if the signer reports
rejection, `SubmissionError` on transport failure, and otherwise hands
off to the lifecycle, which enters `Submitted(hash)`. -/
def writeCall (signer : Option (Nat → SignerResult)) (desc : Nat) :
    WriteOutcome :=
  match signer with
  | none =>
    { result := .error .SignerUnavailable, submissions := [],
      lifecycle := .Idle }
  | some sg =>
    match sg desc with
    | .rejected =>
      { result := .error .UserRejected, submissions := [desc],
        lifecycle := .Idle }
    | .transportError =>
      { result := .error .SubmissionError, submissions := [desc],
        lifecycle := .Idle }
    | .accepted h =>
      { result := .ok h, submissions := [desc], lifecycle := .Submitted h }

/-- C7: a write call with no signer capability fails with
`SignerUnavailable`, hands nothing to the transport, and leaves the
lifecycle in `Idle`. -/
theorem writeCall_no_signer (desc : Nat) :
    (writeCall none desc).result = .error .SignerUnavailable ∧
    (writeCall none desc).submissions = [] ∧
    (writeCall none desc).lifecycle = .Idle :=
  ⟨rfl, rfl, rfl⟩

/-- A cache key: the (network, account) pair of §2. -/
abbrev CacheKey := Nat × Nat

/-- Modelled from the spec: the `RefreshCoordinator`'s `onTerminal`
invocations produced when a lifecycle reaches a terminal state (§4.4):
"invoked exactly once per lifecycle reaching `Confirmed`; never invoked
on `Failed`".  Each element is the `affectedKeys` argument of one
invocation. -/
def terminalRefreshCalls (s : TransactionState)
    (affectedKeys : List CacheKey) : List (List CacheKey) :=
  match s with
  | .Confirmed _ => [affectedKeys]
  | _ => []

/-- Modelled from the spec: the cache keys invalidated as a consequence
of a terminal lifecycle state — exactly those passed to some
`onTerminal` invocation. -/
def invalidationsOnTerminal (s : TransactionState)
    (affectedKeys : List CacheKey) : List CacheKey :=
  (terminalRefreshCalls s affectedKeys).flatten

/-- Modelled from the spec: the receipt the transport reports while the
lifecycle is `Confirming` (§4.3): successful inclusion, reverted
execution, or a transport error while waiting. -/
inductive Receipt where
  | success
  | reverted (reason : String)
  | transportError (msg : String)
deriving DecidableEq, Repr

/-- Modelled from the spec: how a `Confirming(hash)` lifecycle settles on
a receipt (§4.3): `Confirmed` on successful inclusion, `Failed` on
revert or transport error. -/
def settleLifecycle (h : Nat) (r : Receipt) : TransactionState :=
  match r with
  | .success => .Confirmed h
  | .reverted reason => .Failed (some h) reason
  | .transportError msg => .Failed (some h) msg

/-- Modelled from the spec: one full write execution — dispatch, then (on
successful submission) settlement of the lifecycle on the transport's
receipt — returning the final lifecycle state and the list of
`onTerminal` invocations made. -/
def runWrite (signer : Option (Nat → SignerResult)) (desc : Nat)
    (receipt : Receipt) (keys : List CacheKey) :
    TransactionState × List (List CacheKey) :=
  match (writeCall signer desc).result with
  | .error _ =>
    ((writeCall signer desc).lifecycle,
      terminalRefreshCalls (writeCall signer desc).lifecycle keys)
  | .ok h =>
    (settleLifecycle h receipt, terminalRefreshCalls (settleLifecycle h receipt) keys)

/-- C9: `onTerminal` is invoked exactly once when a lifecycle reaches
`Confirmed` and never on `Failed`; in every write execution the number of
invocations is one exactly when the final state is `Confirmed`, and a
`Failed` final state produces no invocation, hence no cache
invalidation. -/
theorem onTerminal_confirmed_once (keys : List CacheKey) (h : Nat)
    (oh : Option Nat) (reason : String) :
    terminalRefreshCalls (.Confirmed h) keys = [keys] ∧
    terminalRefreshCalls (.Failed oh reason) keys = [] ∧
    invalidationsOnTerminal (.Failed oh reason) keys = [] ∧
    (∀ (sg : Option (Nat → SignerResult)) (desc : Nat) (receipt : Receipt),
      ((runWrite sg desc receipt keys).2.length = 1 ↔
        ∃ hh, (runWrite sg desc receipt keys).1 = .Confirmed hh)) ∧
    (∀ (sg : Option (Nat → SignerResult)) (desc : Nat) (receipt : Receipt)
        (hh : Option Nat) (r : String),
      (runWrite sg desc receipt keys).1 = .Failed hh r →
      (runWrite sg desc receipt keys).2 = []) := by
  refine ⟨rfl, rfl, rfl, fun sg desc receipt => ?_, fun sg desc receipt hh r hf => ?_⟩
  · cases sg with
    | none => simp [runWrite, writeCall, terminalRefreshCalls]
    | some f =>
      cases hsg : f desc with
      | accepted hash =>
        cases receipt with
        | success => simp [runWrite, writeCall, hsg, settleLifecycle, terminalRefreshCalls]
        | reverted reason' => simp [runWrite, writeCall, hsg, settleLifecycle, terminalRefreshCalls]
        | transportError msg => simp [runWrite, writeCall, hsg, settleLifecycle, terminalRefreshCalls]
      | rejected => simp [runWrite, writeCall, hsg, terminalRefreshCalls]
      | transportError => simp [runWrite, writeCall, hsg, terminalRefreshCalls]
  · cases sg with
    | none => simp [runWrite, writeCall, terminalRefreshCalls]
    | some f =>
      cases hsg : f desc with
      | accepted hash =>
        cases receipt with
        | success =>
          simp [runWrite, writeCall, hsg, settleLifecycle] at hf
        | reverted reason' => simp [runWrite, writeCall, hsg, settleLifecycle, terminalRefreshCalls]
        | transportError msg => simp [runWrite, writeCall, hsg, settleLifecycle, terminalRefreshCalls]
      | rejected => simp [runWrite, writeCall, hsg, terminalRefreshCalls]
      | transportError => simp [runWrite, writeCall, hsg, terminalRefreshCalls]

/-- C9 witness: a confirmed write run invokes `onTerminal` once; a
reverted write run invokes it never. -/
theorem onTerminal_confirmed_once_witness :
    terminalRefreshCalls (.Confirmed 1) [(5003, 7)] = [[(5003, 7)]] ∧
    (∃ hh, (runWrite (some fun _ => .accepted 1) 0 .success [(5003, 7)]).1 =
      .Confirmed hh) ∧
    (runWrite (some fun _ => .accepted 1) 0 (.reverted "insufficient balance")
      [(5003, 7)]).2 = [] := by
  obtain ⟨h1, _, _, h4, h5⟩ :=
    onTerminal_confirmed_once [(5003, 7)] 1 (some 1) "insufficient balance"
  refine ⟨h1, (h4 (some fun _ => .accepted 1) 0 .success).mp rfl,
    h5 (some fun _ => .accepted 1) 0 (.reverted "insufficient balance")
      (some 1) "insufficient balance" rfl⟩

/-- Modelled from the spec: a `DerivedStateCache` entry (§4.5), a value
"tagged with a monotonically increasing fetch sequence number". -/
structure CacheEntry (α : Type) where
  value : α
  seq : Nat
deriving DecidableEq, Repr

/-- Modelled from the spec: applying a completed fetch result to the
cache slot of its key (§4.5): "a fetch result older (lower sequence
number) than the currently cached entry for the same key is discarded
rather than applied". -/
def applyFetch {α : Type} (current : Option (CacheEntry α))
    (incoming : CacheEntry α) : Option (CacheEntry α) :=
  match current with
  | none => some incoming
  | some c => if incoming.seq < c.seq then some c else some incoming

/-- C10: a fetch result with lower sequence number than the cached entry
is discarded; applying two fetch results for the same key in either
completion order leaves the cache holding the entry with the higher
sequence number, never the stale one. -/
theorem cache_discards_stale {α : Type} (c inc e1 e2 : CacheEntry α) :
    (inc.seq < c.seq → applyFetch (some c) inc = some c) ∧
    (e1.seq < e2.seq →
      applyFetch (applyFetch none e2) e1 = some e2 ∧
      applyFetch (applyFetch none e1) e2 = some e2) := by
  constructor
  · intro hlt
    simp [applyFetch, hlt]
  · intro hlt
    constructor
    · simp [applyFetch, hlt]
    · simp [applyFetch, Nat.not_lt.mpr (Nat.le_of_lt hlt)]

/-- C10 witness: with cached sequence 5 an incoming sequence 3 is
discarded, and two out-of-order completions with sequences 1 and 2 leave
the sequence-2 entry cached either way. -/
theorem cache_discards_stale_witness :
    applyFetch (some (⟨0, 5⟩ : CacheEntry Nat)) ⟨1, 3⟩ = some ⟨0, 5⟩ ∧
    applyFetch (applyFetch none (⟨20, 2⟩ : CacheEntry Nat)) ⟨10, 1⟩ =
      some ⟨20, 2⟩ ∧
    applyFetch (applyFetch none (⟨10, 1⟩ : CacheEntry Nat)) ⟨20, 2⟩ =
      some ⟨20, 2⟩ := by
  obtain ⟨h1, h2⟩ :=
    cache_discards_stale (⟨0, 5⟩ : CacheEntry Nat) ⟨1, 3⟩ ⟨10, 1⟩ ⟨20, 2⟩
  obtain ⟨h2a, h2b⟩ := h2 (by decide)
  exact ⟨h1 (by decide), h2a, h2b⟩

end Yeil
